import Mathlib

/-!
Shallow embedding of `import_addon.py` (stremio-docker): a batch tool that
fetches addon manifest JSON documents, validates them, merges them by id into
the `profile.addons` list of `localStorage.json`, and persists the result
atomically.

Modelling conventions:
* JSON documents are the inductive `Json` below; Python `None` and JSON `null`
  are the same value (`Json.null`), exactly as in Python where `json.loads`
  maps `null` to `None`.  Numbers are modelled as integers (the store data the
  program manipulates never needs floats).
* Python dicts are association lists `PyDict` with unique-key lookup on the
  first occurrence; `d.get(k)` (default `None`) is `pyGet`, `d[k]` (raising
  `KeyError` when absent) is `lookup?` returning `Option`.
* I/O is factored out: network fetch plus JSON decoding of a source string is
  an oracle `String → SrcOutcome`; the store file is an
  `Option (Option PyDict)` (`none` = file absent, `some none` = file exists
  but is invalid JSON, `some (some d)` = parsed document); `save_storage` is
  modelled as the list of file-system operations it performs.
* Uncaught Python exceptions are `none` / a `crash` outcome; the messages the
  program prints to stderr are modelled as the exact strings it builds.
  Stdout progress lines are observability only and are not modelled.
-/

/-- JSON values (Python objects produced by `json.loads`). -/
inductive Json where
  | null : Json
  | bool : Bool → Json
  | num : Int → Json
  | str : String → Json
  | arr : List Json → Json
  | obj : List (String × Json) → Json
  deriving Repr

/-- A Python dict with string keys, as an insertion-ordered association list. -/
abbrev PyDict := List (String × Json)

/-- Python `d[k]`: `none` models a raised `KeyError`. -/
def lookup? : PyDict → String → Option Json
  | [], _ => none
  | (k', v) :: rest, k => if k' = k then some v else lookup? rest k

/-- Python `k in d`. -/
def hasKey (d : PyDict) (k : String) : Bool :=
  (lookup? d k).isSome

/-- Python `d.get(k)` with default `None`; an absent key and a stored JSON
`null` are both Python `None`, so both map to `Json.null`. -/
def pyGet (d : PyDict) (k : String) : Json :=
  (lookup? d k).getD Json.null

/-- Python `d[k] = v`: replaces the value at an existing key in place
(preserving dict order), appends a fresh key at the end. -/
def setKey : PyDict → String → Json → PyDict
  | [], k, v => [(k, v)]
  | (k', v') :: rest, k, v =>
      if k' = k then (k, v) :: rest else (k', v') :: setKey rest k v

/-- The ASCII whitespace characters recognised by Python's `str.split()` and
`str.strip()` (the Unicode extras are irrelevant to the inputs modelled). -/
def isPySpace (c : Char) : Bool :=
  c = ' ' || c = '\t' || c = '\n' || c = '\r' || c = '\x0b' || c = '\x0c'

/-- Truthiness of Python `s.strip()`: true iff `s` has a non-whitespace char. -/
def hasNonWs (s : String) : Bool :=
  s.data.any (fun c => !isPySpace c)

/-- Worker for `str.split()`: `cur` is the (reversed) word being accumulated. -/
def splitWsAux (cur : List Char) : List Char → List (List Char)
  | [] => if cur.isEmpty then [] else [cur.reverse]
  | c :: rest =>
      if isPySpace c then
        if cur.isEmpty then splitWsAux [] rest
        else cur.reverse :: splitWsAux [] rest
      else splitWsAux (c :: cur) rest

/-- Python `s.split()` (no separator): split on runs of whitespace, never
producing empty words. -/
def pySplit (s : String) : List String :=
  (splitWsAux [] s.data).map (fun l => String.mk l)

/-! Python `==` on JSON trees (values produced by `json.loads`): structural
equality.  Python also equates `1 == 1.0` and `True == 1`; numbers are
modelled uniformly as integers so that identification is immaterial here. -/

mutual
def jsonBeq : Json → Json → Bool
  | .null, .null => true
  | .bool a, .bool b => a == b
  | .num a, .num b => a == b
  | .str a, .str b => a == b
  | .arr xs, .arr ys => jsonBeqList xs ys
  | .obj fs, .obj gs => jsonBeqFields fs gs
  | _, _ => false
def jsonBeqList : List Json → List Json → Bool
  | [], [] => true
  | x :: xs, y :: ys => jsonBeq x y && jsonBeqList xs ys
  | _, _ => false
def jsonBeqFields : List (String × Json) → List (String × Json) → Bool
  | [], [] => true
  | (k, v) :: fs, (l, w) :: gs => k == l && jsonBeq v w && jsonBeqFields fs gs
  | _, _ => false
end

/-- Source: `VALIDATE8ADDONS = True` (module-level toggle). -/
def VALIDATE8ADDONS : Bool := true

/-- Source: `REQUIRED_FIELDS = [...]` (line 18). -/
def REQUIRED_FIELDS : List String :=
  ["id", "version", "name", "description", "logo", "resources", "types"]

/-- The string fields checked by `validate_addon` (line 63). -/
def str_fields : List String :=
  ["id", "version", "name", "description", "logo"]

/-- Message built at line 60 of the source. -/
def missingMsg (src : String) (missing : List String) : String :=
  "Missing required field(s) in '" ++ src ++ "': " ++ String.intercalate ", " missing

/-- Message built at line 66 of the source. -/
def badStrMsg (k src : String) : String :=
  "Field '" ++ k ++ "' must be a non-empty string in '" ++ src ++ "'"

/-- Message built at line 71 of the source. -/
def badShapeMsg (k src : String) : String :=
  "Field '" ++ k ++ "' must be a list or object in '" ++ src ++ "'"

/-- The `for k in str_fields` loop of `validate_addon` (lines 64-66): returns
the first failure message, if any.  `data[k]` cannot raise here because the
loop only runs once every required field is present; `pyGet` is used, whose
`null` default would fail the `isinstance(_, str)` test exactly as Python's
`None` would. -/
def checkStrFields (data : PyDict) (src : String) : List String → Option String
  | [] => none
  | k :: rest =>
      match pyGet data k with
      | .str s => if hasNonWs s then checkStrFields data src rest else some (badStrMsg k src)
      | _ => some (badStrMsg k src)

/-- The `for k in ["resources", "types"]` loop (lines 69-71): each must be a
Python list or dict (JSON array or object). -/
def checkShapeFields (data : PyDict) (src : String) : List String → Option String
  | [] => none
  | k :: rest =>
      match pyGet data k with
      | .arr _ => checkShapeFields data src rest
      | .obj _ => checkShapeFields data src rest
      | _ => some (badShapeMsg k src)

/-- Source: `validate_addon(data, src)` (lines 56-73). -/
def validate_addon (data : PyDict) (src : String) : Bool × String :=
  let missing := REQUIRED_FIELDS.filter (fun k => !hasKey data k)
  if missing.isEmpty then
    match checkStrFields data src str_fields with
    | some msg => (false, msg)
    | none =>
        match checkShapeFields data src ["resources", "types"] with
        | some msg => (false, msg)
        | none => (true, "ok")
  else
    (false, missingMsg src missing)

/-- Source: `load_storage(path)` (lines 75-92).  The file system is abstracted
to the outcome of lines 76-83: `none` = the file does not exist (line 76),
`some none` = it exists but `json.load` raises `JSONDecodeError` (line 81),
`some (some data)` = it parses to the dict `data`.  Returns the loaded store
(or `none`, Python `None`) together with the warnings printed to stderr. -/
def load_storage : Option (Option PyDict) → Option PyDict × List String
  | none => (none, [])
  | some none => (none, ["Warning: storage file was invalid json."])
  | some (some data) =>
      match lookup? data "profile" with
      | some (.obj pf) =>
          match lookup? pf "addons" with
          | some (.arr _) => (some data, [])
          | _ => (none, ["Warning: storage file missing 'addons' array."])
      | _ => (none, ["Warning: storage file missing 'profile' object."])

/-- The dict literal built at lines 106-113 of `merge_addon`: a fresh
`AddonEntry` with both flags `False`, the incoming manifest and the source. -/
def mkAddonEntry (addon : PyDict) (src : String) : Json :=
  .obj [("flags", .obj [("official", .bool false), ("protected", .bool false)]),
        ("manifest", .obj addon),
        ("transportUrl", .str src)]

/-- The `for i, existing in enumerate(addons)` loop of `merge_addon`
(lines 115-121).  The condition at line 116 is
`isinstance(existing, dict) and existing.get("id") == addon["id"]`: note it
reads the existing entry's TOP-LEVEL `"id"` key, not `manifest.id`.
`addon["id"]` is evaluated only when the isinstance test passes; a missing
`"id"` raises `KeyError`, modelled as `none`. -/
def mergeScan (addon : PyDict) (entry : Json) : List Json → Option (List Json × String)
  | [] => some ([entry], "inserted")
  | x :: rest =>
      match x with
      | .obj xf =>
          match lookup? addon "id" with
          | none => none
          | some aid =>
              if jsonBeq (pyGet xf "id") aid then some (entry :: rest, "updated")
              else (mergeScan addon entry rest).map (fun p => (x :: p.1, p.2))
      | _ => (mergeScan addon entry rest).map (fun p => (x :: p.1, p.2))

/-- Source: `merge_addon(storage, addon, src)` (lines 102-121).  Python
mutates `storage["profile"]["addons"]` in place; functionally the list is
written back with `setKey`, which replaces the existing keys in place.
`none` models an uncaught exception (`KeyError` from `addon["id"]`, or a
storage without the `profile.addons` shape, which `main` never passes). -/
def merge_addon (storage : PyDict) (addon : PyDict) (src : String) :
    Option (PyDict × String) :=
  let entry := mkAddonEntry addon src
  match lookup? storage "profile" with
  | some (.obj pf) =>
      match lookup? pf "addons" with
      | some (.arr addons) =>
          (mergeScan addon entry addons).map (fun p =>
            (setKey storage "profile" (.obj (setKey pf "addons" (.arr p.1))), p.2))
      | _ => none
  | _ => none

/-- The `profile.addons` list of a storage dict (empty for malformed input;
`main` only ever holds storages where `load_storage` checked the shape). -/
def addonsOf (storage : PyDict) : List Json :=
  match lookup? storage "profile" with
  | some (.obj pf) =>
      match lookup? pf "addons" with
      | some (.arr l) => l
      | _ => []
  | _ => []

/-- The `manifest.id` of a stored addon entry (`Json.null` when absent). -/
def manifestIdOf (e : Json) : Json :=
  match e with
  | .obj fs =>
      match lookup? fs "manifest" with
      | some (.obj m) => pyGet m "id"
      | _ => .null
  | _ => .null

/-! Orchestrator.  `read_bytes_from_source` (lines 23-40) and
`parse_json_payload` (lines 42-54) perform network and parsing I/O; their
combined outcome for a given source string is abstracted as an oracle
`String → SrcOutcome`.  The messages of the exceptions they raise are built
exactly as the source builds them. -/

/-- Outcome of fetching and decoding one source: the `RuntimeError` of
line 40, the `ValueError` of line 50 (text could not be decoded), the
`ValueError` of line 54 (invalid JSON), or the parsed document (a dict, per
the source's `Dict[str, Any]` annotation). -/
inductive SrcOutcome where
  | fetchErr : String → SrcOutcome
  | decodeErr : String → SrcOutcome
  | jsonErr : String → SrcOutcome
  | doc : PyDict → SrcOutcome

/-- Message of the `RuntimeError` raised at line 40. -/
def fetchErrMsg (src exc : String) : String :=
  "Failed to fetch '" ++ src ++ "': " ++ exc

/-- Message of the `ValueError` raised at line 50. -/
def decodeErrMsg (src exc : String) : String :=
  "Could not decode JSON from '" ++ src ++ "': " ++ exc

/-- Message of the `ValueError` raised at line 54. -/
def jsonErrMsg (src exc : String) : String :=
  "Invalid JSON from '" ++ src ++ "': " ++ exc

/-- Line 146: the `except` clause of `import_addon_one` logs the caught
exception with the offending source identifier. -/
def importErrMsg (src exc : String) : String :=
  "Error importing '" ++ src ++ "': " ++ exc

/-- Source: `import_addon_one(src, storage)` (lines 123-147).  Returns the
success flag, the storage after the call, and the lines printed to stderr.
Every failure of fetch, decode or merge is caught by the `except` at
line 145 and logged via `importErrMsg`; a validation failure logs the
validator's message (line 133) and returns early.  On success the validated
document is merged (line 135); the subsequent summary prints only access
fields the validator guaranteed, so they cannot raise.  A `KeyError` from
`addon["id"]` inside `merge_addon` (possible only with validation off) is
logged as Python prints it: `'id'`. -/
def import_addon_one (env : String → SrcOutcome) (src : String) (storage : PyDict) :
    Bool × PyDict × List String :=
  match env src with
  | .fetchErr e => (false, storage, [importErrMsg src (fetchErrMsg src e)])
  | .decodeErr e => (false, storage, [importErrMsg src (decodeErrMsg src e)])
  | .jsonErr e => (false, storage, [importErrMsg src (jsonErrMsg src e)])
  | .doc data =>
      let merged :=
        match merge_addon storage data src with
        | none => (false, storage, [importErrMsg src "'id'"])
        | some (storage2, _action) => (true, storage2, [])
      if VALIDATE8ADDONS then
        match validate_addon data src with
        | (false, msg) => (false, storage, [msg])
        | (true, _) => merged
      else merged

/-- The `for u in urls` loop of `main` (lines 168-171): every source is
attempted in order; the per-source verdicts, final storage and accumulated
stderr lines are returned. -/
def runLoop (env : String → SrcOutcome) : List String → PyDict →
    List (String × Bool) × PyDict × List String
  | [], st => ([], st, [])
  | u :: rest, st =>
      let r := import_addon_one env u st
      let rec' := runLoop env rest r.2.1
      ((u, r.1) :: rec'.1, rec'.2.1, r.2.2 ++ rec'.2.2)

/-- Lines 151-153 of `main`: keep the CLI arguments whose `strip()` is
truthy, then take the FIRST of them and whitespace-split it.  `none` models
the `IndexError` that `urls[0]` raises when no argument survives the
filter. -/
def parseArgs (argv : List String) : Option (List String) :=
  match argv.filter hasNonWs with
  | [] => none
  | a :: _ => some (pySplit a)

/-- Observable outcome of one `main` run.  `exitCode = none` models an
uncaught exception escaping `main` (the process dies on a traceback, not on
a `return` value); `results` lists each attempted source with its verdict,
in order; `saves` records every `save_storage(path, data)` invocation. -/
structure RunResult where
  exitCode : Option Nat
  results : List (String × Bool)
  errLines : List String
  saves : List (String × PyDict)

/-- Source: `main()` (lines 149-179), over the CLI arguments `sys.argv[1:]`,
the store-file oracle (see `load_storage`) and the per-source fetch/decode
oracle (see `import_addon_one`). -/
def pyMain (argv : List String) (file : Option (Option PyDict))
    (env : String → SrcOutcome) : RunResult :=
  match parseArgs argv with
  | none => { exitCode := none, results := [], errLines := [], saves := [] }
  | some urls =>
      if urls.isEmpty then
        { exitCode := some 2
          results := []
          errLines := ["No addon URL provided. Provide as CLI args",
                       "Example: python3 import_addon.py https://example.com/manifest.json"]
          saves := [] }
      else
        match load_storage file with
        | (none, warns) =>
            { exitCode := some 1
              results := []
              errLines := warns ++ ["No addons were imported due to errors."]
              saves := [] }
        | (some storage, warns) =>
            let r := runLoop env urls storage
            let successCount := (r.1.filter (fun p => p.2)).length
            if successCount > 0 then
              { exitCode := some 0
                results := r.1
                errLines := warns ++ r.2.2
                saves := [("localStorage.json", r.2.1)] }
            else
              { exitCode := some 1
                results := r.1
                errLines := warns ++ r.2.2 ++ ["No addons were imported due to errors."]
                saves := [] }

/-! Persistence.  `save_storage` (lines 94-100) serializes with
`json.dump(data, f, ensure_ascii=False, indent=2, sort_keys=True)` followed
by `f.write("\n")`, writing to `path + ".tmp"` and then `os.replace`-ing it
over `path`.  The serializer below mirrors Python's `json` encoder with
those options: 2-space indentation per nesting level, items separated by
`","` + newline + indent, keys joined to values by `": "`, strings escaped
with `ensure_ascii=False` (only the backslash, the double quote and control
characters are escaped), and every object's items emitted in sorted key
order.  `sort_keys=True` sorts each object's items during encoding; this is
factored as a recursive key-sorting pass (`sortKeysJson`) followed by an
order-preserving printer (`dumpJson`), which emits the same string. -/

/-- Lowercase hex digit, for `\u00XX` escapes of control characters. -/
def hexDigit (n : Nat) : Char :=
  if n < 10 then Char.ofNat (48 + n) else Char.ofNat (87 + n)

/-- Escape one character as Python's json encoder does with
`ensure_ascii=False`. -/
def escapeChar (c : Char) : String :=
  if c = '"' then "\\\""
  else if c = '\\' then "\\\\"
  else if c = '\n' then "\\n"
  else if c = '\r' then "\\r"
  else if c = '\t' then "\\t"
  else if c = '\x08' then "\\b"
  else if c = '\x0c' then "\\f"
  else if c.toNat < 0x20 then
    "\\u00" ++ String.mk [hexDigit (c.toNat / 16), hexDigit (c.toNat % 16)]
  else String.singleton c

/-- A JSON string literal as the encoder prints it. -/
def quoteJsonStr (s : String) : String :=
  "\"" ++ String.join (s.data.map escapeChar) ++ "\""

/-- Insert one field into a key-sorted field list, keeping it sorted
(ascending by key, stable — Python's `sorted` over dict items; dict keys are
unique so values never take part in the comparison). -/
def insertField (p : String × Json) : List (String × Json) → List (String × Json)
  | [] => [p]
  | q :: rest => if p.1 ≤ q.1 then p :: q :: rest else q :: insertField p rest

/-- Sort an object's fields by key, as `sort_keys=True` does. -/
def sortFields : List (String × Json) → List (String × Json)
  | [] => []
  | p :: rest => insertField p (sortFields rest)

mutual
/-- Recursively put every object's fields in sorted key order. -/
def sortKeysJson : Json → Json
  | .obj fs => .obj (sortFields (sortKeysFields fs))
  | .arr xs => .arr (sortKeysArr xs)
  | j => j
def sortKeysFields : List (String × Json) → List (String × Json)
  | [] => []
  | (k, v) :: rest => (k, sortKeysJson v) :: sortKeysFields rest
def sortKeysArr : List Json → List Json
  | [] => []
  | x :: rest => sortKeysJson x :: sortKeysArr rest
end

/-- Newline plus the 2-space-per-level indent that `indent=2` produces. -/
def nlIndent (lvl : Nat) : String :=
  "\n" ++ String.mk (List.replicate (2 * lvl) ' ')

mutual
/-- Print a JSON value at nesting level `lvl`, exactly as Python's encoder
with `indent=2` does (field order is preserved; sorting happened before). -/
def dumpJson (lvl : Nat) : Json → String
  | .null => "null"
  | .bool true => "true"
  | .bool false => "false"
  | .num n => toString n
  | .str s => quoteJsonStr s
  | .arr [] => "[]"
  | .arr (x :: xs) =>
      "[" ++ nlIndent (lvl + 1) ++ dumpJson (lvl + 1) x ++
        dumpArrRest (lvl + 1) xs ++ nlIndent lvl ++ "]"
  | .obj [] => "\x7b\x7d"
  | .obj (f :: fs) =>
      "\x7b" ++ nlIndent (lvl + 1) ++ dumpField (lvl + 1) f ++
        dumpObjRest (lvl + 1) fs ++ nlIndent lvl ++ "\x7d"
def dumpField (lvl : Nat) : String × Json → String
  | (k, v) => quoteJsonStr k ++ ": " ++ dumpJson lvl v
def dumpArrRest (lvl : Nat) : List Json → String
  | [] => ""
  | x :: xs => "," ++ nlIndent lvl ++ dumpJson lvl x ++ dumpArrRest lvl xs
def dumpObjRest (lvl : Nat) : List (String × Json) → String
  | [] => ""
  | f :: fs => "," ++ nlIndent lvl ++ dumpField lvl f ++ dumpObjRest lvl fs
end

/-- `json.dump(data, f, ensure_ascii=False, indent=2, sort_keys=True)`. -/
def pyJsonDumps (j : Json) : String :=
  dumpJson 0 (sortKeysJson j)

/-- File-system operations performed by `save_storage`. -/
inductive FsOp where
  | makedirsParentOf : String → FsOp
  | write : String → String → FsOp
  | replace : String → String → FsOp
  deriving Repr

/-- Source: `save_storage(path, data)` (lines 94-100): ensure the parent
directory of `path` exists (line 96; the `dirname(abspath(path))`
resolution is OS-level and creates no file), write the serialized store
plus a trailing newline to the sibling `path + ".tmp"` (lines 97-99), then
atomically rename it over `path` with `os.replace` (line 100). -/
def save_storage (path : String) (data : PyDict) : List FsOp :=
  [ .makedirsParentOf path,
    .write (path ++ ".tmp") (pyJsonDumps (.obj data) ++ "\n"),
    .replace (path ++ ".tmp") path ]

/-- Whether an operation writes file contents at `p` (`os.makedirs` creates
directories, never files; `os.replace`'s effect at its destination is the
atomic rename itself). -/
def writesContentAt (p : String) : FsOp → Bool
  | .write q _ => q = p
  | _ => false

/-! Helper lemmas. -/

theorem lookup?_setKey_self (k : String) (v : Json) :
    ∀ d : PyDict, lookup? (setKey d k v) k = some v := by
  intro d
  induction d with
  | nil => simp [setKey, lookup?]
  | cons p rest ih =>
      obtain ⟨a, b⟩ := p
      by_cases ha : a = k
      · subst ha
        simp [setKey, lookup?]
      · simp only [setKey, if_neg ha, lookup?, ih]

theorem lookup?_setKey_ne (k k' : String) (v : Json) (h : k' ≠ k) :
    ∀ d : PyDict, lookup? (setKey d k v) k' = lookup? d k' := by
  intro d
  induction d with
  | nil => simp [setKey, lookup?, Ne.symm h]
  | cons p rest ih =>
      obtain ⟨a, b⟩ := p
      by_cases ha : a = k
      · subst ha
        simp [setKey, lookup?, Ne.symm h]
      · simp only [setKey, if_neg ha, lookup?, ih]

theorem mergeScan_mem (addon : PyDict) (entry : Json) :
    ∀ (l l' : List Json) (act : String), mergeScan addon entry l = some (l', act) →
      ∀ e ∈ l', e ∈ l ∨ e = entry := by
  intro l
  induction l with
  | nil =>
      intro l' act h e he
      simp only [mergeScan, Option.some.injEq, Prod.mk.injEq] at h
      rw [← h.1, List.mem_singleton] at he
      exact Or.inr he
  | cons x rest ih =>
      intro l' act h e he
      simp only [mergeScan] at h
      split at h
      · split at h
        · exact absurd h (by simp)
        · split at h
          · simp only [Option.some.injEq, Prod.mk.injEq] at h
            rw [← h.1, List.mem_cons] at he
            rcases he with he | he
            · exact Or.inr he
            · exact Or.inl (List.mem_cons_of_mem _ he)
          · rw [Option.map_eq_some'] at h
            obtain ⟨p, hp, hpe⟩ := h
            rw [Prod.mk.injEq] at hpe
            rw [← hpe.1, List.mem_cons] at he
            rcases he with he | he
            · exact Or.inl (he ▸ List.mem_cons_self _ _)
            · rcases ih p.1 p.2 (by rw [hp]) e he with h1 | h1
              · exact Or.inl (List.mem_cons_of_mem _ h1)
              · exact Or.inr h1
      · rw [Option.map_eq_some'] at h
        obtain ⟨p, hp, hpe⟩ := h
        rw [Prod.mk.injEq] at hpe
        rw [← hpe.1, List.mem_cons] at he
        rcases he with he | he
        · exact Or.inl (he ▸ List.mem_cons_self _ _)
        · rcases ih p.1 p.2 (by rw [hp]) e he with h1 | h1
          · exact Or.inl (List.mem_cons_of_mem _ h1)
          · exact Or.inr h1

theorem splitWsAux_ne_nil :
    ∀ (l cur : List Char),
      cur ≠ [] ∨ l.any (fun c => !isPySpace c) = true → splitWsAux cur l ≠ [] := by
  intro l
  induction l with
  | nil =>
      intro cur h
      rcases h with h | h
      · simp [splitWsAux, List.isEmpty_iff, h]
      · simp at h
  | cons c rest ih =>
      intro cur h
      by_cases hs : isPySpace c
      · rcases h with h | h
        · simp [splitWsAux, hs, List.isEmpty_iff, h]
        · simp only [List.any_cons, hs, Bool.not_true, Bool.false_or] at h
          cases cur with
          | nil => simpa [splitWsAux, hs] using ih [] (Or.inr h)
          | cons a as => simp [splitWsAux, hs]
      · simpa [splitWsAux, hs] using ih (c :: cur) (Or.inl (by simp))

theorem pySplit_ne_nil (s : String) (h : hasNonWs s = true) : pySplit s ≠ [] := by
  have h2 := splitWsAux_ne_nil s.data [] (Or.inr h)
  simpa [pySplit] using h2

/-- Every source is attempted, in order, whatever the individual outcomes. -/
theorem runLoop_sources (env : String → SrcOutcome) :
    ∀ (urls : List String) (st : PyDict),
      ((runLoop env urls st).1).map Prod.fst = urls := by
  intro urls
  induction urls with
  | nil => intro st; simp [runLoop]
  | cons u rest ih => intro st; simp [runLoop, ih]

theorem insertField_mem (p q : String × Json) :
    ∀ l, q ∈ insertField p l → q = p ∨ q ∈ l := by
  intro l
  induction l with
  | nil => intro h; simpa [insertField] using h
  | cons r rest ih =>
      intro h
      simp only [insertField] at h
      split at h
      · rw [List.mem_cons] at h
        rcases h with h | h
        · exact Or.inl h
        · exact Or.inr h
      · rw [List.mem_cons] at h
        rcases h with h | h
        · exact Or.inr (h ▸ List.mem_cons_self _ _)
        · rcases ih h with h1 | h1
          · exact Or.inl h1
          · exact Or.inr (List.mem_cons_of_mem _ h1)

theorem insertField_sorted (p : String × Json) :
    ∀ l, List.Pairwise (fun a b : String × Json => a.1 ≤ b.1) l →
      List.Pairwise (fun a b : String × Json => a.1 ≤ b.1) (insertField p l) := by
  intro l
  induction l with
  | nil => intro _; simp [insertField]
  | cons q rest ih =>
      intro h
      rw [List.pairwise_cons] at h
      simp only [insertField]
      split
      · rename_i hle
        rw [List.pairwise_cons]
        refine ⟨?_, List.pairwise_cons.mpr h⟩
        intro r hr
        rw [List.mem_cons] at hr
        rcases hr with hr | hr
        · exact hr ▸ hle
        · exact le_trans hle (h.1 r hr)
      · rename_i hle
        rw [List.pairwise_cons]
        refine ⟨?_, ih h.2⟩
        intro r hr
        rcases insertField_mem p r rest hr with h1 | h1
        · exact h1 ▸ le_of_not_le hle
        · exact h.1 r h1

theorem sortFields_sorted :
    ∀ l : List (String × Json),
      List.Pairwise (fun a b : String × Json => a.1 ≤ b.1) (sortFields l) := by
  intro l
  induction l with
  | nil => simp [sortFields]
  | cons p rest ih => exact insertField_sorted p (sortFields rest) ih

theorem append_tmp_ne (path : String) : path ++ ".tmp" ≠ path := by
  intro h
  have h2 := congrArg String.length h
  rw [String.length_append] at h2
  have h4 : (".tmp" : String).length = 4 := rfl
  omega

/-- Unfolding of `jsonBeq` at the null/string case, used when evaluating the
scan condition of `merge_addon` on entries it constructed itself (their
top-level `"id"` lookup yields Python `None`). -/
theorem jsonBeq_null_str (s : String) : jsonBeq Json.null (Json.str s) = false := by
  rw [jsonBeq.eq_def]

/-- Accessor on an addon-entry object (Python `entry.get(k)` semantics). -/
def jsonField (e : Json) (k : String) : Json :=
  match e with
  | .obj fs => pyGet fs k
  | _ => .null

/-- The manifest of §8's worked example: all seven required fields present. -/
def exampleManifest : PyDict :=
  [("id", Json.str "a1"), ("version", Json.str "1.0"), ("name", Json.str "Foo"),
   ("description", Json.str "A foo"), ("logo", Json.str "http://x/l.png"),
   ("resources", Json.arr []), ("types", Json.arr [])]

/-- A well-shaped store whose `profile.addons` list is `entries`. -/
def storeWith (entries : List Json) : PyDict :=
  [("profile", Json.obj [("addons", Json.arr entries)])]

/-- Exit status 2 is unreachable: any argument surviving the `arg.strip()`
filter has a non-whitespace character, so `urls[0].split()` is never empty;
with no surviving argument `urls[0]` raises `IndexError` first. -/
theorem exit_status_two_unreachable
    (argv : List String) (file : Option (Option PyDict)) (env : String → SrcOutcome) :
    (pyMain argv file env).exitCode ≠ some 2 := by
  unfold pyMain
  cases hp : parseArgs argv with
  | none => simp
  | some urls =>
      have hne : urls ≠ [] := by
        unfold parseArgs at hp
        cases hf : argv.filter hasNonWs with
        | nil => rw [hf] at hp; exact absurd hp (by simp)
        | cons a rest =>
            rw [hf] at hp
            simp only [Option.some.injEq] at hp
            have hmem : a ∈ argv.filter hasNonWs := by
              rw [hf]; exact List.mem_cons_self a rest
            have ha : hasNonWs a = true := (List.mem_filter.mp hmem).2
            rw [← hp]
            exact pySplit_ne_nil a ha
      have hemp : urls.isEmpty = false := by
        rw [List.isEmpty_eq_false]
        exact hne
      simp only [hemp, Bool.false_eq_true, if_false]
      cases hl : load_storage file with
      | mk sto warns =>
          cases sto with
          | none => simp
          | some storage =>
              repeat' split
              all_goals simp

/-- C1: the claim states that `merge` replaces an existing entry in place
(returning `updated`) whenever that entry's `manifest.id` equals the new
manifest's `id`, appending (`inserted`) only when no such entry exists.  The
code instead compares the entry's TOP-LEVEL `"id"` key (line 116), which the
entries it constructs do not have: with a store already holding the entry
built from `exampleManifest` (whose `manifest.id` is `"a1"`), merging the
same manifest (id `"a1"`) again appends a second entry and returns
`"inserted"`. -/
theorem C1_merge_matches_top_level_id_not_manifest_id :
    manifestIdOf (mkAddonEntry exampleManifest "s1") = Json.str "a1" ∧
    pyGet exampleManifest "id" = Json.str "a1" ∧
    merge_addon (storeWith [mkAddonEntry exampleManifest "s1"]) exampleManifest "s2" =
      some (storeWith [mkAddonEntry exampleManifest "s1", mkAddonEntry exampleManifest "s2"],
            "inserted") := by
  refine ⟨rfl, rfl, ?_⟩
  simp [merge_addon, mergeScan, storeWith, mkAddonEntry, exampleManifest,
        lookup?, pyGet, setKey, jsonBeq_null_str]

/-- C2: the claim states the `addons` list holds at most one entry per
manifest id and that a second import of the same manifest is `updated`.  In
the code both imports return `"inserted"` and the store ends with two
entries whose `manifest.id` is `"a1"`. -/
theorem C2_double_import_duplicates_entry :
    merge_addon (storeWith []) exampleManifest "u" =
      some (storeWith [mkAddonEntry exampleManifest "u"], "inserted") ∧
    merge_addon (storeWith [mkAddonEntry exampleManifest "u"]) exampleManifest "u" =
      some (storeWith [mkAddonEntry exampleManifest "u", mkAddonEntry exampleManifest "u"],
            "inserted") ∧
    (addonsOf (storeWith [mkAddonEntry exampleManifest "u",
                          mkAddonEntry exampleManifest "u"])).map manifestIdOf =
      [Json.str "a1", Json.str "a1"] := by
  refine ⟨rfl, ?_, rfl⟩
  simp [merge_addon, mergeScan, storeWith, mkAddonEntry, exampleManifest,
        lookup?, pyGet, setKey, jsonBeq_null_str]

/-- C3: the claim states that an invocation with no non-empty source exits
with status 2 without rewriting the store.  In the code, `urls = urls[0].split()`
(line 153) raises an uncaught `IndexError` when no argument survives the
`arg.strip()` filter — with zero arguments and with a whitespace-only
argument alike — so `main` dies on a traceback (`exitCode = none` in the
model) instead of returning 2; see `exit_status_two_unreachable` for the
complementary fact that status 2 is dead code on every input. -/
theorem C3_no_usable_input_crashes_instead_of_exit2 :
    pyMain [] (some (some (storeWith []))) (fun _ => SrcOutcome.fetchErr "unused") =
      ⟨none, [], [], []⟩ ∧
    pyMain ["   "] (some (some (storeWith []))) (fun _ => SrcOutcome.fetchErr "unused") =
      ⟨none, [], [], []⟩ := by
  exact ⟨rfl, rfl⟩

/-- C4: a `FetchError`, `DecodeError` or `ValidationError` on one source is
caught inside the per-source step, logged to stderr with that source's
identifier (the logged line is exactly the `importErrMsg`/validator string
embedding `src`), counted as a failure, and the loop attempts every source
in order regardless; `save_storage` is recorded at most once per run, only
when at least one import succeeded, and then every source was attempted. -/
theorem C4_failures_isolated_persist_once :
    (∀ (env : String → SrcOutcome) (st : PyDict) (src e : String),
        env src = SrcOutcome.fetchErr e →
        import_addon_one env src st =
          (false, st, [importErrMsg src (fetchErrMsg src e)])) ∧
    (∀ (env : String → SrcOutcome) (st : PyDict) (src e : String),
        env src = SrcOutcome.decodeErr e →
        import_addon_one env src st =
          (false, st, [importErrMsg src (decodeErrMsg src e)])) ∧
    (∀ (env : String → SrcOutcome) (st : PyDict) (src e : String),
        env src = SrcOutcome.jsonErr e →
        import_addon_one env src st =
          (false, st, [importErrMsg src (jsonErrMsg src e)])) ∧
    (∀ (env : String → SrcOutcome) (st : PyDict) (src msg : String) (d : PyDict),
        env src = SrcOutcome.doc d → validate_addon d src = (false, msg) →
        import_addon_one env src st = (false, st, [msg])) ∧
    (∀ (env : String → SrcOutcome) (urls : List String) (st : PyDict),
        ((runLoop env urls st).1).map Prod.fst = urls) ∧
    (∀ (argv : List String) (file : Option (Option PyDict)) (env : String → SrcOutcome),
        (pyMain argv file env).saves.length ≤ 1) ∧
    (∀ (argv : List String) (file : Option (Option PyDict)) (env : String → SrcOutcome),
        (pyMain argv file env).saves = [] ∨
        (0 < ((pyMain argv file env).results.filter (fun p => p.2)).length ∧
         (pyMain argv file env).results.map Prod.fst = (parseArgs argv).getD [])) := by
  refine ⟨?_, ?_, ?_, ?_, runLoop_sources, ?_, ?_⟩
  · intro env st src e h
    simp [import_addon_one, h]
  · intro env st src e h
    simp [import_addon_one, h]
  · intro env st src e h
    simp [import_addon_one, h]
  · intro env st src msg d h hv
    simp [import_addon_one, h, VALIDATE8ADDONS, hv]
  · intro argv file env
    unfold pyMain
    cases parseArgs argv with
    | none => simp
    | some urls =>
        dsimp only
        by_cases hemp : urls.isEmpty = true
        · rw [if_pos hemp]
          simp
        · rw [if_neg hemp]
          cases load_storage file with
          | mk sto warns =>
              cases sto with
              | none => simp
              | some storage =>
                  dsimp only
                  by_cases hc :
                      (List.filter (fun p => p.2) (runLoop env urls storage).1).length > 0
                  · rw [if_pos hc]
                    simp
                  · rw [if_neg hc]
                    simp
  · intro argv file env
    unfold pyMain
    cases hp : parseArgs argv with
    | none => simp
    | some urls =>
        dsimp only
        by_cases hemp : urls.isEmpty = true
        · rw [if_pos hemp]
          exact Or.inl rfl
        · rw [if_neg hemp]
          cases load_storage file with
          | mk sto warns =>
              cases sto with
              | none => simp
              | some storage =>
                  dsimp only
                  by_cases hc :
                      (List.filter (fun p => p.2) (runLoop env urls storage).1).length > 0
                  · rw [if_pos hc]
                    refine Or.inr ⟨hc, ?_⟩
                    rw [runLoop_sources]
                    simp
                  · rw [if_neg hc]
                    exact Or.inl rfl

/-- C9: with validation enabled, a source whose import fails (at fetch,
decode or validation) contributes no mutation: whenever `import_addon_one`
reports failure, the storage it returns is exactly the storage it was
given. -/
theorem C9_failed_source_leaves_store_unchanged :
    ∀ (env : String → SrcOutcome) (src : String) (st : PyDict),
      (import_addon_one env src st).1 = false →
      (import_addon_one env src st).2.1 = st := by
  intro env src st h
  unfold import_addon_one at h ⊢
  cases he : env src with
  | fetchErr e => simp [he]
  | decodeErr e => simp [he]
  | jsonErr e => simp [he]
  | doc d =>
      rw [he] at h
      simp only [VALIDATE8ADDONS, if_true] at h ⊢
      cases hv : validate_addon d src with
      | mk ok msg =>
          cases ok with
          | false => simp
          | true =>
              rw [hv] at h
              cases hm : merge_addon st d src with
              | none => simp [hm]
              | some p =>
                  obtain ⟨s2, act⟩ := p
                  rw [hm] at h
                  simp at h

/-- C5: `save_storage` serializes the full store as pretty-printed JSON
(2-space indent via `dumpJson`, recursively key-sorted objects via
`sortKeysJson`) with a trailing newline, writes it to the sibling temp path
`path + ".tmp"` — provably distinct from the final path — and only then
renames it over the target with `os.replace`; no operation ever writes file
contents at the final path itself. -/
theorem C5_persist_atomic_sorted_pretty :
    ∀ (path : String) (data : PyDict),
      save_storage path data =
        [FsOp.makedirsParentOf path,
         FsOp.write (path ++ ".tmp") (pyJsonDumps (Json.obj data) ++ "\n"),
         FsOp.replace (path ++ ".tmp") path] ∧
      path ++ ".tmp" ≠ path ∧
      (save_storage path data).filter (writesContentAt path) = [] ∧
      (∃ body, pyJsonDumps (Json.obj data) ++ "\n" = body ++ "\n") ∧
      sortKeysJson (Json.obj data) = Json.obj (sortFields (sortKeysFields data)) ∧
      List.Pairwise (fun a b : String => a ≤ b)
        ((sortFields (sortKeysFields data)).map Prod.fst) := by
  intro path data
  refine ⟨rfl, append_tmp_ne path, ?_, ⟨pyJsonDumps (Json.obj data), rfl⟩, ?_, ?_⟩
  · simp [save_storage, writesContentAt, append_tmp_ne path]
  · rw [sortKeysJson.eq_def]
  · rw [List.pairwise_map]
    exact sortFields_sorted (sortKeysFields data)

/-- C7: when required fields are missing, `validate_addon` fails with the
single message listing the complete filtered list of missing fields (in
`REQUIRED_FIELDS` order), and every missing required field is in that
list. -/
theorem C7_all_missing_fields_reported :
    ∀ (data : PyDict) (src : String),
      REQUIRED_FIELDS.filter (fun k => !hasKey data k) ≠ [] →
      (validate_addon data src =
        (false, missingMsg src (REQUIRED_FIELDS.filter (fun k => !hasKey data k))) ∧
       ∀ k ∈ REQUIRED_FIELDS, hasKey data k = false →
         k ∈ REQUIRED_FIELDS.filter (fun k => !hasKey data k)) := by
  intro data src h
  constructor
  · have hne : (REQUIRED_FIELDS.filter (fun k => !hasKey data k)).isEmpty = false := by
      rw [List.isEmpty_eq_false]
      exact h
    simp [validate_addon, hne]
  · intro k hk hnk
    exact List.mem_filter.mpr ⟨hk, by simp [hnk]⟩

/-- C6: `load_storage` yields the absent sentinel silently when the file does
not exist, and yields absent after the corresponding warning when the file is
invalid JSON, lacks a `profile` dict, or lacks an `addons` list inside it;
whenever the load is absent (and `main` gets past argument handling), the run
exits with the fatal status 1, attempts no source, and saves nothing. -/
theorem C6_absent_load_aborts_run :
    load_storage none = (none, []) ∧
    load_storage (some none) = (none, ["Warning: storage file was invalid json."]) ∧
    (∀ data : PyDict, (∀ pf : PyDict, lookup? data "profile" ≠ some (Json.obj pf)) →
        load_storage (some (some data)) =
          (none, ["Warning: storage file missing 'profile' object."])) ∧
    (∀ (data pf : PyDict), lookup? data "profile" = some (Json.obj pf) →
        (∀ l : List Json, lookup? pf "addons" ≠ some (Json.arr l)) →
        load_storage (some (some data)) =
          (none, ["Warning: storage file missing 'addons' array."])) ∧
    (∀ (argv : List String) (file : Option (Option PyDict)) (env : String → SrcOutcome)
        (urls : List String),
        parseArgs argv = some urls → urls ≠ [] →
        (load_storage file).1 = none →
        pyMain argv file env =
          ⟨some 1, [], (load_storage file).2 ++ ["No addons were imported due to errors."], []⟩) := by
  refine ⟨rfl, rfl, ?_, ?_, ?_⟩
  · intro data h
    cases hl : lookup? data "profile" with
    | none => simp [load_storage, hl]
    | some v =>
        cases v with
        | obj pf => exact absurd hl (h pf)
        | null => simp [load_storage, hl]
        | bool b => simp [load_storage, hl]
        | num n => simp [load_storage, hl]
        | str s => simp [load_storage, hl]
        | arr l => simp [load_storage, hl]
  · intro data pf hpf h
    cases ha : lookup? pf "addons" with
    | none => simp [load_storage, hpf, ha]
    | some w =>
        cases w with
        | arr l => exact absurd ha (h l)
        | null => simp [load_storage, hpf, ha]
        | bool b => simp [load_storage, hpf, ha]
        | num n => simp [load_storage, hpf, ha]
        | str s => simp [load_storage, hpf, ha]
        | obj fs => simp [load_storage, hpf, ha]
  · intro argv file env urls hparse hne habs
    unfold pyMain
    rw [hparse]
    dsimp only
    have hemp : ¬ (urls.isEmpty = true) := by
      rw [List.isEmpty_iff]
      exact hne
    rw [if_neg hemp]
    cases hl : load_storage file with
    | mk sto warns =>
        cases sto with
        | some s =>
            rw [hl] at habs
            simp at habs
        | none => rfl

/-- C8: every `AddonEntry` the merge constructs — whether it replaces a
matched entry or is appended — carries `flags.official = false` and
`flags.protected = false` (prior flag values are never carried over, since
any entry of the post-merge list is either an untouched old entry or the
freshly constructed one), and the merge changes nothing outside
`profile.addons`: all other top-level keys and all other `profile` keys keep
their values. -/
theorem C8_flags_reset_store_frame :
    ∀ (storage addon : PyDict) (src : String) (st2 : PyDict) (act : String),
      merge_addon storage addon src = some (st2, act) →
      (jsonField (mkAddonEntry addon src) "flags" =
         Json.obj [("official", Json.bool false), ("protected", Json.bool false)] ∧
       (∀ e ∈ addonsOf st2, e ∈ addonsOf storage ∨ e = mkAddonEntry addon src) ∧
       (∀ k : String, k ≠ "profile" → lookup? st2 k = lookup? storage k) ∧
       (∀ pf pf2 : PyDict,
          lookup? storage "profile" = some (Json.obj pf) →
          lookup? st2 "profile" = some (Json.obj pf2) →
          ∀ k : String, k ≠ "addons" → lookup? pf2 k = lookup? pf k)) := by
  intro storage addon src st2 act h
  simp only [merge_addon] at h
  cases hp : lookup? storage "profile" with
  | none => rw [hp] at h; simp at h
  | some v =>
      rw [hp] at h
      cases v with
      | null => simp at h
      | bool b => simp at h
      | num n => simp at h
      | str s => simp at h
      | arr l => simp at h
      | obj pf =>
          dsimp only at h
          cases ha : lookup? pf "addons" with
          | none => rw [ha] at h; simp at h
          | some w =>
              rw [ha] at h
              cases w with
              | null => simp at h
              | bool b => simp at h
              | num n => simp at h
              | str s => simp at h
              | obj fs => simp at h
              | arr addons =>
                  dsimp only at h
                  rw [Option.map_eq_some'] at h
                  obtain ⟨p, hscan, heq⟩ := h
                  rw [Prod.mk.injEq] at heq
                  obtain ⟨hst2, hact⟩ := heq
                  have hsetpf : lookup? st2 "profile" =
                      some (Json.obj (setKey pf "addons" (Json.arr p.1))) := by
                    rw [← hst2]
                    exact lookup?_setKey_self _ _ storage
                  refine ⟨rfl, ?_, ?_, ?_⟩
                  · intro e he
                    have haddons2 : addonsOf st2 = p.1 := by
                      simp [addonsOf, hsetpf, lookup?_setKey_self]
                    have haddons1 : addonsOf storage = addons := by
                      simp [addonsOf, hp, ha]
                    rw [haddons2] at he
                    rw [haddons1]
                    exact mergeScan_mem addon (mkAddonEntry addon src) addons p.1 p.2
                      (by rw [hscan]) e he
                  · intro k hk
                    rw [← hst2]
                    exact lookup?_setKey_ne _ _ _ hk storage
                  · intro pf' pf2 hpf' hpf2 k hk
                    simp only [Option.some.injEq, Json.obj.injEq] at hpf'
                    rw [hsetpf] at hpf2
                    simp only [Option.some.injEq, Json.obj.injEq] at hpf2
                    rw [← hpf2, ← hpf']
                    exact lookup?_setKey_ne _ _ _ hk pf

theorem filter_eq_nil_of_all_false {α : Type} (p : α → Bool) :
    ∀ l : List α, (∀ x ∈ l, p x = false) → l.filter p = [] := by
  intro l
  induction l with
  | nil => intro _; rfl
  | cons x xs ih =>
      intro h
      rw [List.filter_cons, h x (List.mem_cons_self x xs)]
      simp only [Bool.false_eq_true, if_false]
      exact ih (fun y hy => h y (List.mem_cons_of_mem x hy))

/-- C10: `main` consults only the first CLI argument whose `strip()` is
truthy: the processed source list is the whitespace-split of that single
argument, and every later argument is dropped without any observable effect
(the whole run is identical to the run given just that one argument). -/
theorem C10_only_first_nonblank_argument_used :
    ∀ (pre : List String) (a : String) (post : List String),
      (∀ x ∈ pre, hasNonWs x = false) → hasNonWs a = true →
      (parseArgs (pre ++ a :: post) = some (pySplit a) ∧
       ∀ (file : Option (Option PyDict)) (env : String → SrcOutcome),
         pyMain (pre ++ a :: post) file env = pyMain [a] file env) := by
  intro pre a post hpre ha
  have hpre' : pre.filter hasNonWs = [] := filter_eq_nil_of_all_false hasNonWs pre hpre
  have hfil : (pre ++ a :: post).filter hasNonWs = a :: post.filter hasNonWs := by
    rw [List.filter_append, hpre', List.nil_append, List.filter_cons, ha]
    simp
  have hp1 : parseArgs (pre ++ a :: post) = some (pySplit a) := by
    unfold parseArgs
    rw [hfil]
  have hp2 : parseArgs [a] = some (pySplit a) := by
    unfold parseArgs
    rw [show List.filter hasNonWs [a] = [a] from by rw [List.filter_cons, ha]; simp]
  refine ⟨hp1, ?_⟩
  intro file env
  unfold pyMain
  rw [hp1, hp2]

/-! Witnesses: each applies its claim's theorem at a concrete input. -/

/-- Witness for C4: a fetch failure on source `"u"` is caught, logged with
the source identifier, counted as failed, and leaves the store unchanged. -/
theorem C4_witness :
    import_addon_one (fun _ => SrcOutcome.fetchErr "boom") "u" (storeWith []) =
      (false, storeWith [], [importErrMsg "u" (fetchErrMsg "u" "boom")]) :=
  C4_failures_isolated_persist_once.1 (fun _ => SrcOutcome.fetchErr "boom")
    (storeWith []) "u" "boom" rfl

/-- Witness for C5 at the concrete store path. -/
theorem C5_witness : "localStorage.json" ++ ".tmp" ≠ "localStorage.json" :=
  (C5_persist_atomic_sorted_pretty "localStorage.json" []).2.1

/-- Witness for C6: with the store file absent, the concrete run exits 1
having attempted nothing and saved nothing. -/
theorem C6_witness :
    pyMain ["u"] none (fun _ => SrcOutcome.fetchErr "x") =
      ⟨some 1, [], ["No addons were imported due to errors."], []⟩ := by
  have h := C6_absent_load_aborts_run.2.2.2.2 ["u"] none
    (fun _ => SrcOutcome.fetchErr "x") ["u"] rfl (by decide) rfl
  simpa using h

/-- Witness for C7: a document having only `id` gets one message listing the
other six required fields. -/
theorem C7_witness :
    validate_addon [("id", Json.str "x")] "s" =
      (false, missingMsg "s" ["version", "name", "description", "logo", "resources", "types"]) := by
  have h := (C7_all_missing_fields_reported [("id", Json.str "x")] "s" (by decide)).1
  simpa [REQUIRED_FIELDS, hasKey, lookup?] using h

/-- Witness for C8: the freshly inserted entry has both flags `false`. -/
theorem C8_witness :
    jsonField (mkAddonEntry exampleManifest "u") "flags" =
      Json.obj [("official", Json.bool false), ("protected", Json.bool false)] :=
  (C8_flags_reset_store_frame (storeWith []) exampleManifest "u"
    (storeWith [mkAddonEntry exampleManifest "u"]) "inserted" rfl).1

/-- Witness for C9: a failed fetch leaves the concrete store untouched. -/
theorem C9_witness :
    (import_addon_one (fun _ => SrcOutcome.fetchErr "down") "v" (storeWith [])).2.1 =
      storeWith [] :=
  C9_failed_source_leaves_store_unchanged (fun _ => SrcOutcome.fetchErr "down") "v"
    (storeWith []) rfl

/-- Witness for C10: a blank first argument is skipped, the second is split
on whitespace, and the third is discarded. -/
theorem C10_witness :
    parseArgs ["", "u v", "ignored"] = some ["u", "v"] := by
  have h := (C10_only_first_nonblank_argument_used [""] "u v" ["ignored"]
    (by decide) (by decide)).1
  exact h
